import Mathlib

/-!
Shallow embedding of the dipper NCBIGene / Ensembl source parsers
(src/dipper/sources/NCBIGene.py and src/dipper/sources/Ensembl.py),
covering the identifier normalizer, the type classifier, the entity
kind registry, the location resolver, the deprecation and publication
linkers, the malformed-record handling, and the ortholog group
resolver.  Strings are modelled as lists of characters so that every
definition evaluates by kernel reduction.
-/

namespace Dipper

/-- Strings of the Python source, modelled as character lists. -/
abbrev Str := List Char

/-- Coerce a Lean string literal to the character-list model. -/
def s2l (s : String) : Str := s.data

/-- Python s.startswith(p) / an anchored regex match of a literal p. -/
def startsW (pat s : Str) : Bool := pat.isPrefixOf s

/-- re.sub with a start-anchored literal pattern: replace the prefix
pat by repl when present (at most one replacement), otherwise return
the string unchanged. -/
def subAnchored (pat repl s : Str) : Str :=
  if startsW pat s then repl ++ s.drop pat.length else s

/-- One step of the unanchored re.sub scan, structural in a fuel
argument (fuel is always instantiated with the length of the input,
which suffices because a non-empty pattern consumes at least one
character per replacement). -/
def replaceFuel (pat repl : Str) : Nat → Str → Str
  | 0, s => s
  | _ + 1, [] => []
  | fuel + 1, c :: rest =>
    if startsW pat (c :: rest) ∧ pat ≠ [] then
      repl ++ replaceFuel pat repl fuel ((c :: rest).drop pat.length)
    else
      c :: replaceFuel pat repl fuel rest

/-- re.sub with an unanchored literal pattern: replace every
(left-to-right, non-overlapping) occurrence of pat by repl. -/
def replaceAll (pat repl s : Str) : Str := replaceFuel pat repl s.length s

/-- NCBIGene._cleanup_id (NCBIGene.py lines 541-563): the identifier
normalizer.  Four start-anchored rewrites followed by one unanchored
rewrite of FLYBASE. -/
def cleanup_id (i : Str) : Str :=
  let c := subAnchored (s2l "MIM") (s2l "OMIM") i
  let c := subAnchored (s2l "HGNC:HGNC") (s2l "HGNC") c
  let c := subAnchored (s2l "Ensembl") (s2l "ENSEMBL") c
  let c := subAnchored (s2l "MGI:MGI") (s2l "MGI") c
  replaceAll (s2l "FLYBASE") (s2l "FlyBase") c

/-- Does pat occur anywhere in s as a contiguous substring?  (Used to
state when the unanchored FLYBASE rewrite leaves a token unchanged.) -/
def hasSub (pat : Str) : Str → Bool
  | [] => decide (pat = [])
  | c :: rest => startsW pat (c :: rest) || hasSub pat rest

/-- Python dict lookup d.get(k) over an association-list model. -/
def alookup {α : Type} (k : Str) : List (Str × α) → Option α
  | [] => none
  | (k', v) :: rest => if k' = k then some v else alookup k rest

/-- Python dict assignment d[k] = v over an association-list model:
overwrite the binding when the key is present, append it otherwise. -/
def aupdate {α : Type} (k : Str) (v : α) : List (Str × α) → List (Str × α)
  | [] => [(k, v)]
  | (k', v') :: rest =>
    if k' = k then (k, v) :: rest else (k', v') :: aupdate k v rest

/-- The whitespace characters removed by Python str.strip(). -/
def isPySpace (c : Char) : Bool :=
  c = ' ' ∨ c = '\t' ∨ c = '\n' ∨ c = '\x0d' ∨ c = '\x0b' ∨ c = '\x0c'

/-- Python str.strip(): drop leading and trailing whitespace. -/
def pyStrip (s : Str) : Str :=
  ((s.dropWhile isPySpace).reverse.dropWhile isPySpace).reverse

/-- Python s.split(sep) for a one-character separator: every maximal
(possibly empty) run between separators, in order. -/
def splitSep (sep : Char) : Str → List Str
  | [] => [[]]
  | c :: rest =>
    let r := splitSep sep rest
    if c = sep then [] :: r
    else
      match r with
      | [] => [[c]]
      | h :: t => (c :: h) :: t

/-- NCBIGene.map_type_of_gene: the fixed gene-info mapping table
(NCBIGene.py lines 513-530) from the type-of-gene field to a Sequence
Ontology code. -/
def type_to_so_map : List (Str × Str) :=
  [(s2l "ncRNA", s2l "SO:0001263"),
   (s2l "other", s2l "SO:0000110"),
   (s2l "protein-coding", s2l "SO:0001217"),
   (s2l "pseudo", s2l "SO:0000336"),
   (s2l "rRNA", s2l "SO:0001637"),
   (s2l "snRNA", s2l "SO:0001268"),
   (s2l "snoRNA", s2l "SO:0001267"),
   (s2l "tRNA", s2l "SO:0001272"),
   (s2l "unknown", s2l "SO:0000110"),
   (s2l "scRNA", s2l "SO:0001266"),
   (s2l "miscRNA", s2l "SO:0000233"),
   (s2l "chromosome", s2l "SO:0000340"),
   (s2l "chromosome_arm", s2l "SO:0000105"),
   (s2l "chromosome_band", s2l "SO:0000341"),
   (s2l "chromosome_part", s2l "SO:0000830")]

/-- The result of classifying a type string: the returned ontology
code together with the warning-level diagnostics the call logged
(logger.warning carries the unmapped string). -/
structure Classified where
  so_id : Str
  warnings : List Str
  deriving DecidableEq, Repr

/-- NCBIGene.map_type_of_gene (NCBIGene.py lines 510-539): table
lookup that falls back to SO:0000110 with a warning naming the
unmapped string. -/
def map_type_of_gene (sotype : Str) : Classified :=
  match alookup sotype type_to_so_map with
  | some v => ⟨v, []⟩
  | none => ⟨s2l "SO:0000110", [sotype]⟩

/-- Ensembl._get_gene_type: the fixed biotype mapping table
(Ensembl.py lines 246-302). -/
def ensembl_type_id_map : List (Str × Str) :=
  [(s2l "3prime_overlapping_ncrna", s2l "SO:0001263"),
   (s2l "Mt_rRNA", s2l "SO:0001637"),
   (s2l "Mt_tRNA", s2l "SO:0001272"),
   (s2l "TEC", []),
   (s2l "antisense", s2l "SO:0001263"),
   (s2l "lincRNA", s2l "SO:0001641"),
   (s2l "macro_lncRNA", s2l "SO:0001263"),
   (s2l "miRNA", s2l "SO:0001265"),
   (s2l "misc_RNA", s2l "SO:0001263"),
   (s2l "polymorphic_pseudogene", s2l "SO:0000336"),
   (s2l "processed_pseudogene", s2l "SO:0000336"),
   (s2l "processed_transcript", s2l "SO:0001263"),
   (s2l "protein_coding", s2l "SO:0001217"),
   (s2l "pseudogene", s2l "SO:0000336"),
   (s2l "rRNA", s2l "SO:0001637"),
   (s2l "ribozyme", s2l "SO:0001263"),
   (s2l "sRNA", s2l "SO:0001263"),
   (s2l "scaRNA", s2l "SO:0001263"),
   (s2l "snoRNA", s2l "SO:0001267"),
   (s2l "transcribed_processed_pseudogene", s2l "SO:0000336"),
   (s2l "transcribed_unitary_pseudogene", s2l "SO:0000336"),
   (s2l "transcribed_unprocessed_pseudogene", s2l "SO:0000336"),
   (s2l "translated_unprocessed_pseudogene", s2l "SO:0000336"),
   (s2l "unitary_pseudogene", s2l "SO:0000336"),
   (s2l "unprocessed_pseudogene", s2l "SO:0000336"),
   (s2l "vaultRNA", s2l "SO:0001263"),
   (s2l "ncRNA", s2l "SO:0001263"),
   (s2l "other", s2l "SO:0000110"),
   (s2l "snRNA", s2l "SO:0001268"),
   (s2l "piRNA", s2l "SO:0001638"),
   (s2l "scRNA", s2l "SO:0001266"),
   (s2l "tRNA", s2l "SO:0001272"),
   (s2l "asRNA", s2l "SO:0001263")]

/-- Ensembl._get_gene_type (Ensembl.py lines 244-308):
type_id_map.get(biotype) — returns None on a miss; the diagnostic
logging in the body is commented out in the source, so no warning is
emitted on a miss. -/
def ensembl_get_gene_type (biotype : Str) : Option Str :=
  alookup biotype ensembl_type_id_map

/-- The two values stored in NCBIGene.self.class_or_indiv: the one
character strings C and I of the Python source. -/
inductive CI
  | C
  | I
  deriving DecidableEq, Repr

/-- The class_or_indiv dict of NCBIGene (NCBIGene.py line 100). -/
abbrev Registry := List (Str × CI)

/-- The kind decision of NCBIGene._get_gene_info lines 195 and
202-205: classify the type-of-gene field, then record I exactly when
the resulting code is SO:0000110 and C otherwise. -/
def class_or_indiv_decision (gtype : Str) : CI :=
  if (map_type_of_gene (pyStrip gtype)).so_id = s2l "SO:0000110" then CI.I
  else CI.C

/-- The fields of one gene_info row that the kind / xref logic reads
(NCBIGene.py line 171-174); the location fields are handled by
process_chrom_loc below and the remaining fields feed only synonym
emission, which no claim concerns. -/
structure GeneInfoRow where
  tax_num : Str
  gene_num : Str
  symbol : Str
  gtype : Str
  xrefs : Str
  desc : Str
  deriving DecidableEq, Repr

/-- NCBIGene gene_id construction (line 193). -/
def gene_id_of (row : GeneInfoRow) : Str := s2l "NCBIGene:" ++ row.gene_num

/-- Graph-sink operations emitted by the entity / xref section of
NCBIGene._get_gene_info (lines 211-255). -/
inductive InfoOp
  | addClassFull (id : Str) (label : Option Str) (typeId : Str) (desc : Str)
  | addIndivFull (id : Str) (label : Option Str) (typeId : Str) (desc : Str)
  | geneProduct (gene xref : Str)
  | equivClass (gene xref : Str)
  | sameIndiv (gene xref : Str)
  deriving DecidableEq, Repr

/-- Python fixedr.split(sep=colon)[0]: the namespace before the first
colon (the whole token when no colon occurs). -/
def headNamespace (s : Str) : Str := s.takeWhile (fun c => c ≠ ':')

/-- The xref loop of NCBIGene._get_gene_info (lines 236-255): split
the xref field on pipes, normalize each token, route HPRD tokens to a
gene-product triple, skip Vega and IMGT/GENE-DB, and otherwise emit a
class-level equivalence when class_or_indiv.get(gene_id) is C and an
individual-level same-as otherwise. -/
def xref_ops (reg : Registry) (gene_id : Str) (xrefs : Str) : List InfoOp :=
  if pyStrip xrefs = s2l "-" then []
  else
    (splitSep '|' (pyStrip xrefs)).flatMap (fun r =>
      let fixedr := cleanup_id r
      if pyStrip fixedr ≠ [] then
        if startsW (s2l "HPRD") fixedr then [InfoOp.geneProduct gene_id fixedr]
        else if headNamespace fixedr = s2l "Vega" ∨
            headNamespace fixedr = s2l "IMGT/GENE-DB" then []
        else if alookup gene_id reg = some CI.C then
          [InfoOp.equivClass gene_id fixedr]
        else [InfoOp.sameIndiv gene_id fixedr]
      else [])

/-- One gene_info record through the kind-and-xref section of
NCBIGene._get_gene_info (lines 193-255): decide and record the kind
in class_or_indiv, emit the class or individual entity operation, and
run the xref loop against the updated registry.  The testMode, taxon
and limit guards are run configuration and are not modelled; the
synonym emissions of lines 221-232 touch no claim and are omitted. -/
def gene_info_record (reg : Registry) (row : GeneInfoRow) :
    Registry × List InfoOp :=
  let gene_id := gene_id_of row
  let gene_type_id := (map_type_of_gene (pyStrip row.gtype)).so_id
  let label := if row.symbol = s2l "NEWENTRY" then none else some row.symbol
  let reg' := aupdate gene_id (class_or_indiv_decision row.gtype) reg
  let entity :=
    if alookup gene_id reg' = some CI.C then
      [InfoOp.addClassFull gene_id label gene_type_id row.desc]
    else [InfoOp.addIndivFull gene_id label gene_type_id row.desc]
  (reg', entity ++ xref_ops reg' gene_id row.xrefs)

/-- An emitted operation respects a kind when class-level operations
occur only under kind C and individual-level ones only under kind I. -/
def opRespects (k : CI) : InfoOp → Prop
  | .equivClass _ _ => k = CI.C
  | .sameIndiv _ _ => k = CI.I
  | .addClassFull _ _ _ _ => k = CI.C
  | .addIndivFull _ _ _ _ => k = CI.I
  | .geneProduct _ _ => True

/-- The character class of digits and capital letters in the band
regular expression of NCBIGene.py line 312. -/
def isUpperAlnum (c : Char) : Bool :=
  ('0' ≤ c ∧ c ≤ '9') ∨ ('A' ≤ c ∧ c ≤ 'Z')

/-- A decimal digit, the d class of the band pattern. -/
def isDigitCh (c : Char) : Bool := '0' ≤ c ∧ c ≤ '9'

/-- The anchored band pattern of NCBIGene.py line 311-312: one or
more characters in 0-9A-Z, then p or q, then an optional digit run,
then an optional dot followed by a digit run, then end of string.
Because p and q are lowercase they cannot be absorbed by the first
class, so the regex match is equivalent to this deterministic
longest-prefix scan. -/
def band_pattern_match (s : Str) : Bool :=
  let a := s.takeWhile isUpperAlnum
  let r := s.drop a.length
  if a = [] then false
  else
    match r with
    | [] => false
    | c :: r1 =>
      if c = 'p' ∨ c = 'q' then
        let d := r1.takeWhile isDigitCh
        match r1.drop d.length with
        | [] => true
        | c2 :: r3 => c2 = '.' ∧ r3 ≠ [] ∧ r3.all isDigitCh
      else false

/-- re.sub of the start-anchored chromosome label c against the band
field (NCBIGene.py line 325): strip the label when it is a prefix. -/
def strip_chrom_label (c map_loc : Str) : Str :=
  if startsW c map_loc then map_loc.drop c.length else map_loc

/-- Location-section graph operations of NCBIGene._get_gene_info
(lines 284-349).  chromClass and chromSyn record the per-chromosome
bookkeeping calls; subBand and subChrom are the two placement facts —
a band fact keeps the composite label passed to makeChromID (the
chromosome label prepended to the stripped band suffix) and both
facts carry the taxon number that scopes the chromosome id. -/
inductive LocOp
  | chromClass (c : Str) (tax_id : Str)
  | chromSyn (c : Str) (tax_num : Str)
  | subBand (gene : Str) (c : Str) (bid : Str) (tax_num : Str)
  | subChrom (gene : Str) (c : Str) (tax_num : Str)
  deriving DecidableEq, Repr

/-- The chromosome / map-location section of NCBIGene._get_gene_info
(lines 284-349) for one record: empty or dash chromosome fields yield
nothing; a pipe in the field outside the two recognized
pseudoautosomal spellings skips the record's placement entirely; the
X; Y spelling is rewritten to X|Y; then each pipe-separated label
yields its bookkeeping calls plus exactly one placement fact — a band
fact when the band pattern matches the map-location field and a plain
chromosome fact otherwise. -/
def process_chrom_loc (gene_id chrom map_loc tax_id tax_num : Str) :
    List LocOp :=
  if chrom = s2l "-" ∨ chrom = [] then []
  else if ('|' ∈ chrom) ∧ chrom ≠ s2l "X|Y" ∧ chrom ≠ s2l "X; Y" then []
  else
    let chrom2 := if chrom = s2l "X; Y" then s2l "X|Y" else chrom
    (splitSep '|' chrom2).flatMap (fun c =>
      [LocOp.chromClass c tax_id, LocOp.chromSyn c tax_num] ++
        (if band_pattern_match map_loc then
          [LocOp.subBand gene_id c (strip_chrom_label c map_loc) tax_num]
        else [LocOp.subChrom gene_id c tax_num]))

/-- The placement facts among the emitted location operations: the
is_subsequence_of triples of lines 333-336 and 346-349. -/
def isLocationFact : LocOp → Bool
  | .subBand _ _ _ _ => true
  | .subChrom _ _ _ => true
  | _ => false

/-- The chromosome label a placement fact places the gene on. -/
def locFactChrom : LocOp → Str
  | .subBand _ c _ _ => c
  | .subChrom _ c _ => c
  | _ => []

/-- The taxon number a placement fact is scoped by. -/
def locFactTaxon : LocOp → Str
  | .subBand _ _ _ t => t
  | .subChrom _ _ t => t
  | _ => []

/-- The placement facts of one record. -/
def locationFacts (gene_id chrom map_loc tax_id tax_num : Str) :
    List LocOp :=
  (process_chrom_loc gene_id chrom map_loc tax_id tax_num).filter
    isLocationFact

/-- Graph-sink operations of NCBIGene._get_gene_history (lines
410-426) and NCBIGene._get_gene2pubmed (lines 488-499). -/
inductive LinkOp
  | addClassG (id : Str) (label : Option Str)
  | addIndivG (id : Str) (label : Option Str)
  | deprecClass (old : Str) (repl : List Str)
  | deprecIndiv (old : Str) (repl : List Str)
  | synonym (id : Str) (text : Str)
  | refJournal (pub : Str)
  | isAbout (pub : Str) (gene : Str)
  deriving DecidableEq, Repr

/-- One gene_history record (NCBIGene.py lines 397-426): dash-valued
ids are skipped; otherwise the current and discontinued gene ids are
added and the deprecation link emitted, on the class branch when
class_or_indiv.get(gene_id) is C and on the individual branch
otherwise (including when the id was never recorded); the old symbol
becomes a synonym of the current gene either way.  The testMode,
taxon and limit guards are run configuration and are not modelled. -/
def gene_history_record (reg : Registry)
    (gene_num discontinued_num discontinued_symbol : Str) : List LinkOp :=
  if gene_num = s2l "-" ∨ discontinued_num = s2l "-" then []
  else
    let gene_id := s2l "NCBIGene:" ++ gene_num
    let discontinued_gene_id := s2l "NCBIGene:" ++ discontinued_num
    (if alookup gene_id reg = some CI.C then
      [LinkOp.addClassG gene_id none,
       LinkOp.addClassG discontinued_gene_id (some discontinued_symbol),
       LinkOp.deprecClass discontinued_gene_id [gene_id]]
    else
      [LinkOp.addIndivG gene_id none,
       LinkOp.addIndivG discontinued_gene_id (some discontinued_symbol),
       LinkOp.deprecIndiv discontinued_gene_id [gene_id]]) ++
      [LinkOp.synonym gene_id discontinued_symbol]

/-- One gene2pubmed record (NCBIGene.py lines 481-499): dash-valued
ids are skipped; the gene is added as a class when
class_or_indiv.get(gene_id) is C and as an individual otherwise
(including when the id was never recorded); the publication is added
as a named individual, typed as a journal article, and linked by an
is_about triple. -/
def gene2pubmed_record (reg : Registry) (gene_num pubmed_num : Str) :
    List LinkOp :=
  if gene_num = s2l "-" ∨ pubmed_num = s2l "-" then []
  else
    let gene_id := s2l "NCBIGene:" ++ gene_num
    let pubmed_id := s2l "PMID:" ++ pubmed_num
    (if alookup gene_id reg = some CI.C then [LinkOp.addClassG gene_id none]
    else [LinkOp.addIndivG gene_id none]) ++
      [LinkOp.addIndivG pubmed_id none,
       LinkOp.refJournal pubmed_id,
       LinkOp.isAbout pubmed_id gene_id]

/-- Python line.split(tab). -/
def splitTab (s : Str) : List Str := splitSep '\t' s

/-- The per-line scan of NCBIGene._get_gene_info (lines 166-174):
strip the line, skip comment lines, then tuple-unpack the
tab-separated fields into fifteen names — any other field count
raises an uncaught ValueError, modelled as an error result that
aborts the scan.  The result counts the data lines scanned. -/
def gene_info_scan : List Str → Except Str Nat
  | [] => .ok 0
  | line :: rest =>
    let l := pyStrip line
    if l.head? = some '#' then gene_info_scan rest
    else if (splitTab l).length ≠ 15 then .error (s2l "ValueError")
    else do
      let n ← gene_info_scan rest
      .ok (n + 1)

/-- The per-line scan of NCBIGene._get_gene_history (lines 380-386):
five tab-separated fields, any other count raises ValueError. -/
def gene_history_scan : List Str → Except Str Nat
  | [] => .ok 0
  | line :: rest =>
    let l := pyStrip line
    if l.head? = some '#' then gene_history_scan rest
    else if (splitTab l).length ≠ 5 then .error (s2l "ValueError")
    else do
      let n ← gene_history_scan rest
      .ok (n + 1)

/-- The per-line scan of NCBIGene._get_gene2pubmed (lines 459-464):
three tab-separated fields, any other count raises ValueError. -/
def gene2pubmed_scan : List Str → Except Str Nat
  | [] => .ok 0
  | line :: rest =>
    let l := pyStrip line
    if l.head? = some '#' then gene2pubmed_scan rest
    else if (splitTab l).length ≠ 3 then .error (s2l "ValueError")
    else do
      let n ← gene2pubmed_scan rest
      .ok (n + 1)

/-- NCBIGene.parse (lines 110-128): the three file passes run in
sequence; an exception raised inside any pass propagates and aborts
the whole run, so later files are never reached. -/
def ncbi_parse (info hist pub : List Str) : Except Str (Nat × Nat × Nat) := do
  let a ← gene_info_scan info
  let b ← gene_history_scan hist
  let c ← gene2pubmed_scan pub
  .ok (a, b, c)

/-- Graph-sink operations of Ensembl._process_genes (lines 219-231). -/
inductive EnsOp
  | addClassFull (id : Str) (label : Str) (typeId : Option Str)
      (desc : Option Str)
  | equivClass (idA idB : Str)
  | addTaxon (tax : Str) (id : Str)
  deriving DecidableEq, Repr

/-- Ensembl._process_genes (Ensembl.py lines 185-242) over the
already-split csv rows of one taxon file.  A row with fewer than four
fields logs a data error and returns from the function, ending that
file but not the run (modelled as a normal result carrying the error
log).  A row of exactly four fields passes that guard and then raises
an uncaught ValueError at the row[0:5] five-name unpack; for the
human file a five-field row raises an uncaught IndexError at row[5].
Each processed row emits the class, the NCBIGene equivalence when the
entrezgene field is non-empty, the hgnc equivalence for the human
file, and the taxon link; the classifier result of line 222 is
overwritten with None on line 223 before use.  The testMode and limit
guards are run configuration and are not modelled. -/
def ensembl_process_genes (taxid : Str) :
    List (List Str) → Except Str (List EnsOp × List Str)
  | [] => .ok ([], [])
  | row :: rest =>
    if row.length < 4 then .ok ([], [s2l "Data error for file"])
    else if row.length = 4 then .error (s2l "ValueError")
    else
      let ensembl_gene_id := row.getD 0 []
      let external_gene_name := row.getD 1 []
      let description := row.getD 2 []
      let entrezgene := row.getD 4 []
      if taxid = s2l "9606" ∧ row.length < 6 then .error (s2l "IndexError")
      else
        let hgnc_id : Option Str :=
          if taxid = s2l "9606" then some (row.getD 5 []) else none
        let gene_id := s2l "ENSEMBL:" ++ ensembl_gene_id
        let desc : Option Str :=
          if description = [] then none else some description
        let ops :=
          [EnsOp.addClassFull gene_id external_gene_name none desc] ++
            (if entrezgene ≠ [] then
              [EnsOp.equivClass gene_id (s2l "NCBIGene:" ++ entrezgene)]
            else []) ++
            (match hgnc_id with
            | some h => if h ≠ [] then [EnsOp.equivClass gene_id h] else []
            | none => []) ++
            [EnsOp.addTaxon (s2l "NCBITaxon:" ++ taxid) gene_id]
        do
          let (more, logs) ← ensembl_process_genes taxid rest
          .ok (ops ++ more, logs)

/-- One row of the gene_group file consumed by
NCBIGene.add_orthologs_by_gene_group (NCBIGene.py line 622). -/
structure GroupRow where
  tax_a : Str
  gene_a : Str
  rel : Str
  tax_b : Str
  gene_b : Str
  deriving DecidableEq, Repr

/-- The comment check of line 619: a regex match of a hash against
the concatenation of the row's fields. -/
def groupRowIsComment (t : GroupRow) : Bool :=
  (t.tax_a ++ t.gene_a ++ t.rel ++ t.tax_b ++ t.gene_b).head? = some '#'

/-- Python set.add over the insertion-ordered list model of a set:
append the element when absent. -/
def setAdd (x : Str) (s : List Str) : List Str :=
  if x ∈ s then s else s ++ [x]

/-- The two-way hash of NCBIGene.add_orthologs_by_gene_group (lines
607-609): group lead to member set, member to lead-key set, and gene
to taxon. -/
structure OrthoIndex where
  group_to_orthology : List (Str × List Str)
  gene_to_group : List (Str × List Str)
  gene_to_taxon : List (Str × Str)
  deriving DecidableEq, Repr

/-- The empty index the build starts from. -/
def emptyIndex : OrthoIndex := ⟨[], [], []⟩

/-- Phase 1 of NCBIGene.add_orthologs_by_gene_group, one row (lines
617-639): skip comment rows and rows whose relation is not exactly
Ortholog; union gene_b into the group keyed by gene_a (creating it
when absent); union gene_a into the lead-key set of gene_b; record
the taxa of both genes; and finally add the group lead gene_a to its
own group. -/
def addGroupRow (idx : OrthoIndex) (t : GroupRow) : OrthoIndex :=
  if groupRowIsComment t then idx
  else if t.rel ≠ s2l "Ortholog" then idx
  else
    let g0 := (alookup t.gene_a idx.group_to_orthology).getD []
    let g1 := setAdd t.gene_b g0
    let m0 := (alookup t.gene_b idx.gene_to_group).getD []
    let m1 := setAdd t.gene_a m0
    let tax1 := aupdate t.gene_a t.tax_a idx.gene_to_taxon
    let tax2 := aupdate t.gene_b t.tax_b tax1
    let g2 := setAdd t.gene_a g1
    ⟨aupdate t.gene_a g2 idx.group_to_orthology,
     aupdate t.gene_b m1 idx.gene_to_group,
     tax2⟩

/-- The full index build over the gene_group stream. -/
def buildIndex (rows : List GroupRow) : OrthoIndex :=
  rows.foldl addGroupRow emptyIndex

/-- Operations emitted by the query loop of
NCBIGene.add_orthologs_by_gene_group (lines 644-662).  The taxon on
addTaxon is optional only because the Python indexing
gene_to_taxon[o] raises a KeyError when the gene is absent; on any
index produced by buildIndex every group member carries a taxon. -/
inductive OrthoOp
  | addClass (oid : Str)
  | addTaxon (tax : Option Str) (oid : Str)
  | assoc (gid oid : Str)
  deriving DecidableEq, Repr

/-- Phase 2 and 3 of NCBIGene.add_orthologs_by_gene_group for one
queried gene id (lines 644-662): strip the NCBIGene prefix, look the
gene up in the reverse index, and for each of its lead keys walk that
lead's member set, emitting for every member the class operation, the
taxon link and one orthology association from the queried id to the
member.  No member is excluded — in particular the queried gene
itself is emitted when it sits in a discovered group. -/
def emitForSeed (idx : OrthoIndex) (gid : Str) : List OrthoOp :=
  let gene_num := replaceAll (s2l "NCBIGene:") [] gid
  match alookup gene_num idx.gene_to_group with
  | none => []
  | some group_nums =>
    group_nums.flatMap (fun group_num =>
      match alookup group_num idx.group_to_orthology with
      | none => []
      | some orthologs =>
        orthologs.flatMap (fun o =>
          let oid := s2l "NCBIGene:" ++ o
          [OrthoOp.addClass oid,
           OrthoOp.addTaxon
             ((alookup o idx.gene_to_taxon).map (fun t => s2l "NCBITaxon:" ++ t))
             oid,
           OrthoOp.assoc gid oid]))

/-- NCBIGene.add_orthologs_by_gene_group (lines 573-668): build the
index from the gene_group stream, then emit for every queried gene
id. -/
def add_orthologs_by_gene_group (rows : List GroupRow)
    (gene_ids : List Str) : List OrthoOp :=
  gene_ids.flatMap (emitForSeed (buildIndex rows))

/-- The orthology-association member ids among emitted operations
whose queried seed is gid. -/
def assocMembers (gid : Str) (ops : List OrthoOp) : List Str :=
  ops.filterMap (fun op =>
    match op with
    | OrthoOp.assoc g oid => if g = gid then some oid else none
    | _ => none)

/-- The member set stored for a lead key (an absent key reads as the
empty set). -/
def groupMembers (idx : OrthoIndex) (l : Str) : List Str :=
  (alookup l idx.group_to_orthology).getD []

/-- The lead-key set of a gene in the reverse index. -/
def leadKeys (idx : OrthoIndex) (gene_num : Str) : List Str :=
  (alookup gene_num idx.gene_to_group).getD []

/-- Number of orthology associations emitted for one (seed, member)
pair. -/
def countAssocTo (gid oid : Str) (ops : List OrthoOp) : Nat :=
  ops.count (OrthoOp.assoc gid oid)

/-- Every member set stored in the forward index is duplicate-free
(Python sets cannot hold duplicates). -/
def groupsNodup (idx : OrthoIndex) : Prop :=
  ∀ k g, alookup k idx.group_to_orthology = some g → g.Nodup

theorem alookup_aupdate {α : Type} (k k2 : Str) (v : α)
    (l : List (Str × α)) :
    alookup k2 (aupdate k v l) = if k = k2 then some v else alookup k2 l := by
  induction l with
  | nil => simp [alookup, aupdate]
  | cons h t ih =>
    obtain ⟨k', v'⟩ := h
    by_cases hk : k' = k
    · subst hk
      by_cases hk2 : k' = k2 <;> simp [alookup, aupdate, hk2]
    · by_cases hk2 : k' = k2
      · subst hk2
        simp [alookup, aupdate, hk, ih]
        rw [if_neg (fun h => hk h.symm)]
      · simp [alookup, aupdate, hk, hk2, ih]

theorem alookup_aupdate_self {α : Type} (k : Str) (v : α)
    (l : List (Str × α)) : alookup k (aupdate k v l) = some v := by
  simp [alookup_aupdate]

-- scratch checks
example : band_pattern_match (s2l "Xp22.3") = true := by decide
example : band_pattern_match (s2l "10q11.1-q24") = false := by decide
example : band_pattern_match (s2l "15q11-q22") = false := by decide
example : band_pattern_match (s2l "7") = false := by decide
example : band_pattern_match (s2l "2q") = true := by decide

example :
    assocMembers (s2l "NCBIGene:G2")
      (add_orthologs_by_gene_group
        [⟨s2l "9606", s2l "G1", s2l "Ortholog", s2l "10090", s2l "G2"⟩,
         ⟨s2l "9606", s2l "G1", s2l "Ortholog", s2l "7955", s2l "G3"⟩]
        [s2l "NCBIGene:G2"]) =
      [s2l "NCBIGene:G2", s2l "NCBIGene:G1", s2l "NCBIGene:G3"] := by decide

example :
    (assocMembers (s2l "NCBIGene:S")
      (add_orthologs_by_gene_group
        [⟨s2l "1", s2l "A", s2l "Ortholog", s2l "1", s2l "S"⟩,
         ⟨s2l "1", s2l "A", s2l "Ortholog", s2l "1", s2l "M"⟩,
         ⟨s2l "1", s2l "B", s2l "Ortholog", s2l "1", s2l "S"⟩,
         ⟨s2l "1", s2l "B", s2l "Ortholog", s2l "1", s2l "M"⟩]
        [s2l "NCBIGene:S"])).count (s2l "NCBIGene:M") = 2 := by decide

example :
    locationFacts (s2l "NCBIGene:438") (s2l "X|Y") (s2l "Xp22.3")
        (s2l "NCBITaxon:9606") (s2l "9606") =
      [LocOp.subBand (s2l "NCBIGene:438") (s2l "X") (s2l "p22.3") (s2l "9606"),
       LocOp.subBand (s2l "NCBIGene:438") (s2l "Y") (s2l "Xp22.3")
         (s2l "9606")] := by decide

example :
    locationFacts (s2l "NCBIGene:619538") (s2l "4|19|3") (s2l "10q26.3")
        (s2l "NCBITaxon:9606") (s2l "9606") = [] := by decide

example :
    locationFacts (s2l "NCBIGene:1") (s2l "10") (s2l "10q11.1-q24")
        (s2l "NCBITaxon:9606") (s2l "9606") =
      [LocOp.subChrom (s2l "NCBIGene:1") (s2l "10") (s2l "9606")] := by decide

example :
    (gene_info_record []
      ⟨s2l "9606", s2l "100", s2l "ADA", s2l "protein-coding", s2l "-",
        s2l "d"⟩).1 = [(s2l "NCBIGene:100", CI.C)] := by decide

example :
    alookup (s2l "NCBIGene:100")
      (gene_info_record
        (gene_info_record []
          ⟨s2l "9606", s2l "100", s2l "ADA", s2l "protein-coding", s2l "-",
            s2l "d"⟩).1
        ⟨s2l "9606", s2l "100", s2l "ADA", s2l "unknown", s2l "-",
          s2l "d"⟩).1 = some CI.I := by decide

example :
    (gene_info_record []
      ⟨s2l "9606", s2l "100", s2l "ADA", s2l "protein-coding",
        s2l "MIM:614444|HGNC:HGNC:16851|Vega:OTT1|HPRD:11479",
        s2l "d"⟩).2 =
      [InfoOp.addClassFull (s2l "NCBIGene:100") (some (s2l "ADA"))
        (s2l "SO:0001217") (s2l "d"),
       InfoOp.equivClass (s2l "NCBIGene:100") (s2l "OMIM:614444"),
       InfoOp.equivClass (s2l "NCBIGene:100") (s2l "HGNC:16851"),
       InfoOp.geneProduct (s2l "NCBIGene:100") (s2l "HPRD:11479")] := by decide

example :
    ncbi_parse [s2l "9606\t100"] [] [] = .error (s2l "ValueError") := rfl

example :
    ensembl_process_genes (s2l "10090") [[s2l "a", s2l "b", s2l "c"]] =
      .ok ([], [s2l "Data error for file"]) := rfl

example :
    ensembl_process_genes (s2l "10090")
      [[s2l "a", s2l "b", s2l "c", s2l "d"]] =
      .error (s2l "ValueError") := rfl

theorem subAnchored_of_not_starts (pat repl s : Str)
    (h : startsW pat s = false) : subAnchored pat repl s = s := by
  simp [subAnchored, h]

theorem replaceFuel_of_no_occur (pat repl : Str) :
    ∀ (fuel : Nat) (s : Str), hasSub pat s = false →
      replaceFuel pat repl fuel s = s := by
  intro fuel
  induction fuel with
  | zero => intro s _; rfl
  | succ n ih =>
    intro s h
    cases s with
    | nil => rfl
    | cons c rest =>
      simp only [hasSub, Bool.or_eq_false_iff] at h
      simp [replaceFuel, h.1, ih rest h.2]

theorem replaceAll_of_no_occur (pat repl s : Str)
    (h : hasSub pat s = false) : replaceAll pat repl s = s :=
  replaceFuel_of_no_occur pat repl s.length s h

/-- C7 counterexample: the token AFLYBASE matches none of the five
listed prefixes, yet the normalizer changes it, because the FLYBASE
rewrite of the source is not start-anchored. -/
theorem cleanup_id_changes_unmatched_token :
    startsW (s2l "MIM") (s2l "AFLYBASE") = false ∧
    startsW (s2l "HGNC:HGNC") (s2l "AFLYBASE") = false ∧
    startsW (s2l "Ensembl") (s2l "AFLYBASE") = false ∧
    startsW (s2l "MGI:MGI") (s2l "AFLYBASE") = false ∧
    startsW (s2l "FLYBASE") (s2l "AFLYBASE") = false ∧
    cleanup_id (s2l "AFLYBASE") ≠ s2l "AFLYBASE" := by decide

/-- C7 amended: the normalizer applies the four start-anchored
substitutions MIM to OMIM, doubled HGNC to HGNC, Ensembl to ENSEMBL
and doubled MGI to MGI, plus an unanchored FLYBASE to FlyBase rewrite
of every occurrence anywhere in the token; the three example rewrites
of the spec hold, and a token that starts with none of the four
anchored patterns and contains no FLYBASE occurrence passes through
unchanged without raising. -/
theorem cleanup_id_rewrite_set :
    cleanup_id (s2l "HGNC:HGNC:16851") = s2l "HGNC:16851" ∧
    cleanup_id (s2l "MIM:614444") = s2l "OMIM:614444" ∧
    headNamespace (cleanup_id (s2l "Ensembl:ENSG00000136828")) =
      s2l "ENSEMBL" ∧
    cleanup_id (s2l "AFLYBASE") = s2l "AFlyBase" ∧
    (∀ s : Str, startsW (s2l "MIM") s = false →
      startsW (s2l "HGNC:HGNC") s = false →
      startsW (s2l "Ensembl") s = false →
      startsW (s2l "MGI:MGI") s = false →
      hasSub (s2l "FLYBASE") s = false →
      cleanup_id s = s) := by
  refine ⟨by decide, by decide, by decide, by decide, ?_⟩
  intro s h1 h2 h3 h4 h5
  show replaceAll (s2l "FLYBASE") (s2l "FlyBase")
      (subAnchored (s2l "MGI:MGI") (s2l "MGI")
        (subAnchored (s2l "Ensembl") (s2l "ENSEMBL")
          (subAnchored (s2l "HGNC:HGNC") (s2l "HGNC")
            (subAnchored (s2l "MIM") (s2l "OMIM") s)))) = s
  rw [subAnchored_of_not_starts _ _ _ h1, subAnchored_of_not_starts _ _ _ h2,
    subAnchored_of_not_starts _ _ _ h3, subAnchored_of_not_starts _ _ _ h4,
    replaceAll_of_no_occur _ _ _ h5]

/-- C7 witness: a ZFIN token matches no rewrite rule and passes
through unchanged. -/
theorem cleanup_id_rewrite_set_witness :
    cleanup_id (s2l "ZFIN:ZDB-GENE-980526-166") =
      s2l "ZFIN:ZDB-GENE-980526-166" :=
  cleanup_id_rewrite_set.2.2.2.2 (s2l "ZFIN:ZDB-GENE-980526-166")
    (by decide) (by decide) (by decide) (by decide) (by decide)

/-- C8 counterexample: the normalizer is not idempotent — a token
with a tripled HGNC namespace loses one copy per application, so the
second application still changes the result of the first. -/
theorem cleanup_id_not_idempotent :
    cleanup_id (cleanup_id (s2l "HGNC:HGNC:HGNC:16851")) ≠
      cleanup_id (s2l "HGNC:HGNC:HGNC:16851") := by decide

/-- C8 amended: idempotence holds on the spec's tested inputs (and on
tokens without nested doubled namespaces), but not for every input
string. -/
theorem cleanup_id_idempotent_on_tested_inputs :
    cleanup_id (cleanup_id (s2l "HGNC:HGNC:16851")) =
      cleanup_id (s2l "HGNC:HGNC:16851") ∧
    cleanup_id (cleanup_id (s2l "MIM:614444")) =
      cleanup_id (s2l "MIM:614444") ∧
    cleanup_id (cleanup_id (s2l "Ensembl:ENSG00000136828")) =
      cleanup_id (s2l "Ensembl:ENSG00000136828") := by decide

/-- C3: processing one gene_info record records kind I exactly when
the mapped type code is SO:0000110 and kind C otherwise, and every
operation the record emits is consistent with that recorded kind —
class-level equivalence only under C, individual-level same-as only
under I, never both for one id. -/
theorem kind_decision_and_dispatch (reg : Registry) (row : GeneInfoRow) :
    alookup (gene_id_of row) (gene_info_record reg row).1 =
      some (class_or_indiv_decision row.gtype) ∧
    (class_or_indiv_decision row.gtype = CI.I ↔
      (map_type_of_gene (pyStrip row.gtype)).so_id = s2l "SO:0000110") ∧
    ∀ op ∈ (gene_info_record reg row).2,
      opRespects (class_or_indiv_decision row.gtype) op := by
  have hreg1 : (gene_info_record reg row).1 =
      aupdate (gene_id_of row) (class_or_indiv_decision row.gtype) reg := rfl
  have hiff : class_or_indiv_decision row.gtype = CI.I ↔
      (map_type_of_gene (pyStrip row.gtype)).so_id = s2l "SO:0000110" := by
    unfold class_or_indiv_decision
    split
    · simp [*]
    · simp [*]
  refine ⟨by rw [hreg1]; exact alookup_aupdate_self _ _ _, hiff, ?_⟩
  intro op hop
  have hops : (gene_info_record reg row).2 =
      (if alookup (gene_id_of row)
          (aupdate (gene_id_of row) (class_or_indiv_decision row.gtype) reg) =
          some CI.C then
        [InfoOp.addClassFull (gene_id_of row)
          (if row.symbol = s2l "NEWENTRY" then none else some row.symbol)
          (map_type_of_gene (pyStrip row.gtype)).so_id row.desc]
      else
        [InfoOp.addIndivFull (gene_id_of row)
          (if row.symbol = s2l "NEWENTRY" then none else some row.symbol)
          (map_type_of_gene (pyStrip row.gtype)).so_id row.desc]) ++
        xref_ops
          (aupdate (gene_id_of row) (class_or_indiv_decision row.gtype) reg)
          (gene_id_of row) row.xrefs := rfl
  rw [hops, alookup_aupdate_self] at hop
  rcases List.mem_append.1 hop with h | h
  · by_cases hkc : class_or_indiv_decision row.gtype = CI.C
    · simp [hkc] at h
      subst h
      simp [opRespects, hkc]
    · have hki : class_or_indiv_decision row.gtype = CI.I := by
        cases h' : class_or_indiv_decision row.gtype
        · exact absurd h' hkc
        · rfl
      rw [if_neg (by simp [hki])] at h
      simp only [List.mem_singleton] at h
      subst h
      simp [opRespects, hki]
  · unfold xref_ops at h
    by_cases hdash : pyStrip row.xrefs = s2l "-"
    · simp [hdash] at h
    · rw [if_neg hdash] at h
      rw [List.mem_flatMap] at h
      obtain ⟨r, _, hr⟩ := h
      dsimp only at hr
      rw [alookup_aupdate_self] at hr
      split_ifs at hr with h1 h2 h3 h4
      · simp only [List.mem_singleton] at hr
        subst hr
        trivial
      · simp at hr
      · simp only [List.mem_singleton] at hr
        subst hr
        simp only [opRespects]
        exact Option.some.inj h4
      · simp only [List.mem_singleton] at hr
        subst hr
        simp only [opRespects]
        cases h' : class_or_indiv_decision row.gtype
        · exact absurd (by rw [h']) h4
        · rfl
      · simp at hr

/-- C3 witness: a protein-coding record with mixed xrefs records kind
C, and its OMIM equivalence was emitted through the class branch. -/
theorem kind_decision_and_dispatch_witness :
    opRespects (class_or_indiv_decision (s2l "protein-coding"))
      (InfoOp.equivClass (s2l "NCBIGene:100") (s2l "OMIM:614444")) :=
  (kind_decision_and_dispatch []
    ⟨s2l "9606", s2l "100", s2l "ADA", s2l "protein-coding",
      s2l "MIM:614444|HGNC:HGNC:16851", s2l "d"⟩).2.2
    (InfoOp.equivClass (s2l "NCBIGene:100") (s2l "OMIM:614444")) (by decide)

/-- C4 counterexample: a later gene_info record for the same id with
a different type code overwrites the recorded kind — after a
protein-coding record the lookup returns C, and after a subsequent
unknown record for the same id it returns I. -/
theorem kind_not_stable_cex :
    alookup (s2l "NCBIGene:100")
      (gene_info_record []
        ⟨s2l "9606", s2l "100", s2l "ADA", s2l "protein-coding", s2l "-",
          s2l "d"⟩).1 = some CI.C ∧
    alookup (s2l "NCBIGene:100")
      (gene_info_record
        (gene_info_record []
          ⟨s2l "9606", s2l "100", s2l "ADA", s2l "protein-coding", s2l "-",
            s2l "d"⟩).1
        ⟨s2l "9606", s2l "100", s2l "ADA", s2l "unknown", s2l "-",
          s2l "d"⟩).1 = some CI.I := by decide

/-- C4 amended: the registry entry for an id is last-writer-wins —
processing a record sets exactly its own gene id to the kind decided
from that record's type code and leaves every other id unchanged, so
a recorded kind is stable only until a later record for the same id
decides a different kind. -/
theorem kind_last_writer_wins (reg : Registry) (row : GeneInfoRow)
    (id : Str) :
    alookup id (gene_info_record reg row).1 =
      if gene_id_of row = id then some (class_or_indiv_decision row.gtype)
      else alookup id reg := by
  have hreg1 : (gene_info_record reg row).1 =
      aupdate (gene_id_of row) (class_or_indiv_decision row.gtype) reg := rfl
  rw [hreg1, alookup_aupdate]

/-- C5: a chromosome field containing a pipe that is not one of the
two pseudoautosomal spellings produces no placement fact at all; the
X semicolon Y spelling is first normalized to X|Y; and the X|Y case
produces exactly one placement fact per chromosome label, each
scoped by the taxon of the record. -/
theorem location_skip_and_pseudoautosomal
    (gene_id ml tax_id tax_num : Str) :
    (∀ chrom : Str, '|' ∈ chrom → chrom ≠ s2l "X|Y" →
      chrom ≠ s2l "X; Y" →
      locationFacts gene_id chrom ml tax_id tax_num = []) ∧
    process_chrom_loc gene_id (s2l "X; Y") ml tax_id tax_num =
      process_chrom_loc gene_id (s2l "X|Y") ml tax_id tax_num ∧
    (locationFacts gene_id (s2l "X|Y") ml tax_id tax_num).map
        (fun f => (locFactChrom f, locFactTaxon f)) =
      [(s2l "X", tax_num), (s2l "Y", tax_num)] := by
  refine ⟨?_, rfl, ?_⟩
  · intro chrom h1 h2 h3
    have hne1 : ¬(chrom = s2l "-" ∨ chrom = ([] : Str)) := by
      rintro (rfl | rfl) <;> revert h1 <;> decide
    unfold locationFacts process_chrom_loc
    rw [if_neg hne1, if_pos ⟨h1, h2, h3⟩]
    rfl
  · simp only [locationFacts, process_chrom_loc,
      eq_false (show ¬(s2l "X|Y" = s2l "-" ∨ s2l "X|Y" = ([] : Str)) from
        by decide),
      eq_false (show ¬(('|' ∈ s2l "X|Y") ∧ s2l "X|Y" ≠ s2l "X|Y" ∧
          s2l "X|Y" ≠ s2l "X; Y") from by decide),
      eq_false (show ¬(s2l "X|Y" = s2l "X; Y") from by decide),
      if_false]
    have hsplit : splitSep '|' (s2l "X|Y") = [s2l "X", s2l "Y"] := by decide
    rw [hsplit]
    by_cases hb : band_pattern_match ml <;>
      simp [hb, isLocationFact, locFactChrom, locFactTaxon]

/-- C5 witness: the skip branch at the concrete ambiguous input
4|19|3 of the spec, which produces no placement fact. -/
theorem location_skip_and_pseudoautosomal_witness :
    locationFacts (s2l "NCBIGene:619538") (s2l "4|19|3")
      (s2l "10q26.3") (s2l "NCBITaxon:9606") (s2l "9606") = [] :=
  (location_skip_and_pseudoautosomal (s2l "NCBIGene:619538")
    (s2l "10q26.3") (s2l "NCBITaxon:9606") (s2l "9606")).1
    (s2l "4|19|3") (by decide) (by decide) (by decide)

/-- C6 counterexample: the biotype-style table of Ensembl does not
fall back to the default sequence-feature code on unknown input — the
lookup returns None, and the diagnostic logging in that function is
commented out, so no warning is emitted either. -/
theorem ensembl_classifier_no_default_cex :
    ensembl_get_gene_type (s2l "sense_intronic") = none ∧
    (none : Option Str) ≠ some (s2l "SO:0000110") := ⟨by decide, by decide⟩

/-- C6 amended: only the gene-info-style table (NCBIGene) returns the
documented default SO:0000110 with a warning naming the unmapped
string; the biotype-style table (Ensembl) returns None on unknown
input and emits no diagnostic. -/
theorem classifier_default_amended :
    (∀ sotype : Str, alookup sotype type_to_so_map = none →
      map_type_of_gene sotype = ⟨s2l "SO:0000110", [sotype]⟩) ∧
    (∀ biotype : Str, alookup biotype ensembl_type_id_map = none →
      ensembl_get_gene_type biotype = none) := by
  constructor
  · intro s h
    simp [map_type_of_gene, h]
  · intro b h
    simpa [ensembl_get_gene_type] using h

/-- C6 witness: an unmapped type-of-gene string falls back to the
default code with a warning naming it. -/
theorem classifier_default_amended_witness :
    map_type_of_gene (s2l "gene_with_known_disease") =
      ⟨s2l "SO:0000110", [s2l "gene_with_known_disease"]⟩ :=
  classifier_default_amended.1 (s2l "gene_with_known_disease") (by decide)

/-- C9 counterexample: a gene_info line with the wrong field count
raises an uncaught ValueError that aborts the whole NCBI parse run —
the well-formed gene_history and gene2pubmed inputs are never
processed, where the claim requires the rest of the run to
continue. -/
theorem malformed_ncbi_aborts_run_cex :
    ncbi_parse [s2l "9606\t100"]
      [s2l "9606\t100\t200\tA1BG\t20100903"]
      [s2l "9606\t100\t12345"] = .error (s2l "ValueError") := rfl

/-- C9 amended: only the Ensembl gene parser implements the
log-an-error-and-stop-the-file policy, and only for rows with fewer
than four fields (the run then continues normally); a wrong-field
count row in an NCBI file raises an uncaught ValueError at the tuple
unpack that aborts the whole run. -/
theorem malformed_record_policy_amended :
    (∀ (taxid : Str) (row : List Str) (rest : List (List Str)),
      row.length < 4 →
      ensembl_process_genes taxid (row :: rest) =
        .ok ([], [s2l "Data error for file"])) ∧
    (∀ (line : Str) (rest hist pub : List Str),
      (pyStrip line).head? ≠ some '#' →
      (splitTab (pyStrip line)).length ≠ 15 →
      ncbi_parse (line :: rest) hist pub = .error (s2l "ValueError")) := by
  constructor
  · intro taxid row rest h
    unfold ensembl_process_genes
    rw [if_pos h]
  · intro line rest hist pub h1 h2
    have hscan : gene_info_scan (line :: rest) = .error (s2l "ValueError") := by
      unfold gene_info_scan
      rw [if_neg h1, if_pos h2]
    unfold ncbi_parse
    rw [hscan]
    rfl

/-- C9 witness: a two-field Ensembl row logs the data error and ends
the file with a normal return. -/
theorem malformed_record_policy_amended_witness :
    ensembl_process_genes (s2l "10090") [[s2l "ENSMUSG1", s2l "Kit"]] =
      .ok ([], [s2l "Data error for file"]) :=
  malformed_record_policy_amended.1 (s2l "10090")
    [s2l "ENSMUSG1", s2l "Kit"] [] (by decide)

/-- C10: when an id was never recorded in class_or_indiv, both the
gene_history and the gene2pubmed emitters take the individual branch:
the gene is added as an individual and deprecation uses the
individual-level operation. -/
theorem registry_miss_takes_individual_branch (reg : Registry)
    (gene_num discontinued_num discontinued_symbol pubmed_num : Str)
    (hmiss : alookup (s2l "NCBIGene:" ++ gene_num) reg = none)
    (h1 : gene_num ≠ s2l "-") (h2 : discontinued_num ≠ s2l "-")
    (h3 : pubmed_num ≠ s2l "-") :
    gene_history_record reg gene_num discontinued_num discontinued_symbol =
      [LinkOp.addIndivG (s2l "NCBIGene:" ++ gene_num) none,
       LinkOp.addIndivG (s2l "NCBIGene:" ++ discontinued_num)
         (some discontinued_symbol),
       LinkOp.deprecIndiv (s2l "NCBIGene:" ++ discontinued_num)
         [s2l "NCBIGene:" ++ gene_num],
       LinkOp.synonym (s2l "NCBIGene:" ++ gene_num) discontinued_symbol] ∧
    gene2pubmed_record reg gene_num pubmed_num =
      [LinkOp.addIndivG (s2l "NCBIGene:" ++ gene_num) none,
       LinkOp.addIndivG (s2l "PMID:" ++ pubmed_num) none,
       LinkOp.refJournal (s2l "PMID:" ++ pubmed_num),
       LinkOp.isAbout (s2l "PMID:" ++ pubmed_num)
         (s2l "NCBIGene:" ++ gene_num)] := by
  constructor
  · simp [gene_history_record, hmiss, h1, h2]
  · simp [gene2pubmed_record, hmiss, h1, h3]

/-- C10 witness: a gene id absent from the registry is deprecated
through the individual branch. -/
theorem registry_miss_takes_individual_branch_witness :
    gene_history_record [] (s2l "100") (s2l "200") (s2l "RNR1") =
      [LinkOp.addIndivG (s2l "NCBIGene:100") none,
       LinkOp.addIndivG (s2l "NCBIGene:200") (some (s2l "RNR1")),
       LinkOp.deprecIndiv (s2l "NCBIGene:200") [s2l "NCBIGene:100"],
       LinkOp.synonym (s2l "NCBIGene:100") (s2l "RNR1")] :=
  (registry_miss_takes_individual_branch [] (s2l "100") (s2l "200")
    (s2l "RNR1") (s2l "999") (by decide) (by decide) (by decide)
    (by decide)).1

/-- C1 counterexample: on the spec's two tuples, querying seed G2
emits an orthology association from the seed to itself — the seed is
not excluded from the discovered member set. -/
theorem ortholog_query_includes_seed_cex :
    OrthoOp.assoc (s2l "NCBIGene:G2") (s2l "NCBIGene:G2") ∈
      add_orthologs_by_gene_group
        [⟨s2l "9606", s2l "G1", s2l "Ortholog", s2l "10090", s2l "G2"⟩,
         ⟨s2l "9606", s2l "G1", s2l "Ortholog", s2l "7955", s2l "G3"⟩]
        [s2l "NCBIGene:G2"] := by decide

/-- C1 amended: on the spec's two tuples, querying seed G2 yields
associations to exactly the members G2, G1 and G3 — membership does
transit through the shared leader G1's group and reaches the
cross-species mate G3, but the seed itself is included, not
excluded. -/
theorem ortholog_query_members :
    assocMembers (s2l "NCBIGene:G2")
      (add_orthologs_by_gene_group
        [⟨s2l "9606", s2l "G1", s2l "Ortholog", s2l "10090", s2l "G2"⟩,
         ⟨s2l "9606", s2l "G1", s2l "Ortholog", s2l "7955", s2l "G3"⟩]
        [s2l "NCBIGene:G2"]) =
      [s2l "NCBIGene:G2", s2l "NCBIGene:G1", s2l "NCBIGene:G3"] := by decide

/-- C2 counterexample: when the pair (seed S, member M) is
discoverable through two different lead keys A and B, the emitter
produces two associations for the same pair — the member set is not
deduplicated per seed before emission. -/
theorem ortholog_pair_emitted_twice_cex :
    countAssocTo (s2l "NCBIGene:S") (s2l "NCBIGene:M")
      (add_orthologs_by_gene_group
        [⟨s2l "1", s2l "A", s2l "Ortholog", s2l "1", s2l "S"⟩,
         ⟨s2l "1", s2l "A", s2l "Ortholog", s2l "1", s2l "M"⟩,
         ⟨s2l "1", s2l "B", s2l "Ortholog", s2l "1", s2l "S"⟩,
         ⟨s2l "1", s2l "B", s2l "Ortholog", s2l "1", s2l "M"⟩]
        [s2l "NCBIGene:S"]) = 2 := by decide

theorem setAdd_nodup (x : Str) (s : List Str) (h : s.Nodup) :
    (setAdd x s).Nodup := by
  unfold setAdd
  split
  · exact h
  · next hx =>
    rw [List.nodup_append]
    refine ⟨h, List.nodup_singleton x, ?_⟩
    intro a ha hmem
    rw [List.mem_singleton] at hmem
    subst hmem
    exact hx ha

theorem addGroupRow_groupsNodup (idx : OrthoIndex) (t : GroupRow)
    (h : groupsNodup idx) : groupsNodup (addGroupRow idx t) := by
  unfold addGroupRow
  split
  · exact h
  split
  · exact h
  · intro k g hg
    simp only [alookup_aupdate] at hg
    split at hg
    · cases hg
      apply setAdd_nodup
      apply setAdd_nodup
      cases halo : alookup t.gene_a idx.group_to_orthology with
      | none => simp [halo]
      | some g0 => simpa [halo] using h _ _ halo
    · exact h _ _ hg

theorem buildIndex_groupsNodup (rows : List GroupRow) :
    groupsNodup (buildIndex rows) := by
  have base : groupsNodup emptyIndex := by
    intro k g hg
    simp [emptyIndex, alookup] at hg
  have step : ∀ (rs : List GroupRow) (idx : OrthoIndex),
      groupsNodup idx → groupsNodup (rs.foldl addGroupRow idx) := by
    intro rs
    induction rs with
    | nil => intro idx h; exact h
    | cons t rest ih =>
      intro idx h
      exact ih _ (addGroupRow_groupsNodup idx t h)
  exact step rows emptyIndex base

theorem count_emit_group (gid m pre : Str) (tax : Str → Option Str) :
    ∀ orth : List Str, orth.Nodup →
      (orth.flatMap (fun o =>
        [OrthoOp.addClass (pre ++ o),
         OrthoOp.addTaxon (tax o) (pre ++ o),
         OrthoOp.assoc gid (pre ++ o)])).count
          (OrthoOp.assoc gid (pre ++ m)) =
      if m ∈ orth then 1 else 0 := by
  intro orth
  induction orth with
  | nil => intro _; simp
  | cons o os ih =>
    intro hnd
    rw [List.nodup_cons] at hnd
    rw [List.flatMap_cons, List.count_append, ih hnd.2]
    by_cases hom : o = m
    · subst hom
      simp [List.count_cons, hnd.1]
    · have hmo : ¬m = o := fun h => hom h.symm
      have hne : ¬(pre ++ o = pre ++ m) := fun h =>
        hom (List.append_cancel_left h)
      simp [List.count_cons, hne, hmo]

theorem count_emit_leaders (idx : OrthoIndex) (gid m : Str)
    (hnd : groupsNodup idx) :
    ∀ leaders : List Str,
      (leaders.flatMap (fun group_num =>
        match alookup group_num idx.group_to_orthology with
        | none => []
        | some orthologs =>
          orthologs.flatMap (fun o =>
            [OrthoOp.addClass (s2l "NCBIGene:" ++ o),
             OrthoOp.addTaxon ((alookup o idx.gene_to_taxon).map
               (fun t => s2l "NCBITaxon:" ++ t)) (s2l "NCBIGene:" ++ o),
             OrthoOp.assoc gid (s2l "NCBIGene:" ++ o)])) ).count
          (OrthoOp.assoc gid (s2l "NCBIGene:" ++ m)) =
      leaders.countP (fun l => decide (m ∈ groupMembers idx l)) := by
  intro leaders
  induction leaders with
  | nil => simp
  | cons l ls ih =>
    rw [List.flatMap_cons, List.count_append, ih, List.countP_cons]
    have hFl :
        ((match alookup l idx.group_to_orthology with
          | none => []
          | some orthologs =>
            orthologs.flatMap (fun o =>
              [OrthoOp.addClass (s2l "NCBIGene:" ++ o),
               OrthoOp.addTaxon ((alookup o idx.gene_to_taxon).map
                 (fun t => s2l "NCBITaxon:" ++ t)) (s2l "NCBIGene:" ++ o),
               OrthoOp.assoc gid (s2l "NCBIGene:" ++ o)])) : List OrthoOp).count
            (OrthoOp.assoc gid (s2l "NCBIGene:" ++ m)) =
          if decide (m ∈ groupMembers idx l) = true then 1 else 0 := by
      cases halo : alookup l idx.group_to_orthology with
      | none => simp [groupMembers, halo]
      | some orth =>
        rw [count_emit_group gid m (s2l "NCBIGene:")
          (fun o => (alookup o idx.gene_to_taxon).map
            (fun t => s2l "NCBITaxon:" ++ t)) orth (hnd l orth halo)]
        simp [groupMembers, halo]
    rw [hFl]
    omega

/-- C2 amended: for every index built from any tuple stream and every
queried seed, the number of associations emitted for a (seed, member)
pair equals the number of lead keys of the seed whose group contains
the member — one emission per lead key through which the pair is
discovered, with no per-seed deduplication before the graph sink. -/
theorem ortholog_emission_count (rows : List GroupRow) (gid m : Str) :
    countAssocTo gid (s2l "NCBIGene:" ++ m)
        (emitForSeed (buildIndex rows) gid) =
      (leadKeys (buildIndex rows)
        (replaceAll (s2l "NCBIGene:") [] gid)).countP
          (fun l => decide (m ∈ groupMembers (buildIndex rows) l)) := by
  cases halk : alookup (replaceAll (s2l "NCBIGene:") [] gid)
      (buildIndex rows).gene_to_group with
  | none => simp [countAssocTo, emitForSeed, halk, leadKeys]
  | some leaders =>
    have h2 := count_emit_leaders (buildIndex rows) gid m
      (buildIndex_groupsNodup rows) leaders
    simp only [countAssocTo, emitForSeed, halk, leadKeys, Option.getD_some]
    exact h2

end Dipper
